import Mathlib

/-!
Shallow embedding of the dynamic-credential lease manager
(`DynamicDatabaseSecret` in `src/langchain_vault_demo/vault.py`).

Modelling conventions:
- timestamps (`datetime.datetime`) are integers (seconds); `timedelta(seconds=d)`
  is the integer `d`; `request_time + timedelta(...)` is integer addition;
- Python `dict` field access `resp["k"]` on a possibly-missing key is an
  `Option` match whose `none` branch raises a `KeyError`;
- the credential payload `resp["data"]` may be any Python object, modelled by
  `PyObj` (a string-to-string dict, or anything else), mirroring the
  `isinstance(self._credentials, dict)` check in `acquire`;
- a remote broker call that can raise is an explicit outcome parameter
  (`GenOutcome` / `RenewOutcome` / `RevokeOutcome`);
- floats (`renew_pct`, the computed interval) are rationals;
- threads are identified by natural numbers; the `threading.Event` is a
  boolean; `Thread.join` raising on a self-join is modelled by `joinResult`.
-/

/-- A Python object stored as a credential payload: either a `dict` of strings
(modelled as an association list) or some non-dict value. -/
inductive PyObj where
  | dict (m : List (String × String))
  | nondict
deriving DecidableEq

/-- The in-memory state of one `DynamicDatabaseSecret` manager instance:
configuration (`renew_pct`, `min_interval`, whether a callback was registered),
the five lease fields, the stop event and the current renewer thread handle. -/
structure DynamicDatabaseSecret where
  renew_pct : ℚ
  min_interval : ℚ
  has_callback : Bool
  lease_id : Option String
  lease_duration : Option ℤ
  lease_expires : Option ℤ
  renewable : Bool
  credentials : Option PyObj
  stop_event : Bool
  renew_thread : Option ℕ
deriving DecidableEq

/-- Substring test on lists of characters (Python `pat in hay`). -/
def containsSub (hay pat : List Char) : Bool :=
  match hay with
  | [] => pat.isEmpty
  | _ :: t => pat.isPrefixOf hay || containsSub t pat

/-- Substring test on strings (Python `pat in hay` for `str`). -/
def strContains (hay pat : String) : Bool :=
  containsSub hay.toList pat.toList

/-- Response of `client.secrets.database.generate_credentials`; each field is
`none` when the corresponding key is absent from the response dict. -/
structure GenResp where
  lease_id : Option String
  lease_duration : Option ℤ
  renewable : Option Bool
  data : Option PyObj
deriving DecidableEq

/-- Outcome of the remote `generate_credentials` call: the call raised, or it
returned a response dict. -/
inductive GenOutcome where
  | err
  | ok (resp : GenResp)
deriving DecidableEq

/-- Exceptions `acquire` can raise: the broker call raised; a `KeyError` on a
missing response field; the `ValueError` for a non-dict credential payload. -/
inductive AcquireErr where
  | brokerErr
  | keyErr (field : String)
  | valueErr
deriving DecidableEq

/-- The `warnings` value of a renew response: a list of strings, or present but
not a list (the code checks `isinstance(resp["warnings"], list)`). -/
inductive WarnVal where
  | strlist (ws : List String)
  | nonlist
deriving DecidableEq

/-- Response of `client.sys.renew_lease`; `lease_duration` is `none` when the
key is absent (the code uses `resp.get("lease_duration", ...)`), `warnings` is
`none` when the `"warnings"` key is absent. -/
structure RenewResp where
  lease_duration : Option ℤ
  warnings : Option WarnVal
deriving DecidableEq

/-- Outcome of the remote `renew_lease` call. -/
inductive RenewOutcome where
  | err
  | ok (resp : RenewResp)
deriving DecidableEq

/-- Outcome of the remote `sys.revoke_lease` call. -/
inductive RevokeOutcome where
  | err
  | ok
deriving DecidableEq

namespace DynamicDatabaseSecret

/-- Embedding of `acquire` (vault.py lines 103-137).  The broker call and the
field assignments happen inside a `try` whose handler logs and re-raises, so a
`KeyError` on a missing response key aborts mid-sequence, keeping the
assignments already made; the `isinstance` dict check runs after all
assignments.  Returns the post-call state together with the returned
credentials dict or the raised exception. -/
def acquire (st : DynamicDatabaseSecret) (request_time : ℤ) (out : GenOutcome) :
    DynamicDatabaseSecret × Except AcquireErr (List (String × String)) :=
  match out with
  | .err => (st, .error .brokerErr)
  | .ok resp =>
    match resp.lease_id with
    | none => (st, .error (.keyErr "lease_id"))
    | some lid =>
      let st1 := { st with lease_id := some lid }
      match resp.lease_duration with
      | none => (st1, .error (.keyErr "lease_duration"))
      | some dur =>
        let st2 := { st1 with lease_duration := some dur }
        match resp.renewable with
        | none => (st2, .error (.keyErr "renewable"))
        | some rnw =>
          let st3 := { st2 with renewable := rnw }
          let st4 := { st3 with
            lease_expires := some (request_time + st3.lease_duration.getD 0) }
          match resp.data with
          | none => (st4, .error (.keyErr "data"))
          | some d =>
            let st5 := { st4 with credentials := some d }
            match d with
            | .dict m => (st5, .ok m)
            | .nondict => (st5, .error .valueErr)

/-- The exception-or-result component of `acquire`, which depends only on the
broker outcome, never on the prior state. -/
def acquireResult (out : GenOutcome) : Except AcquireErr (List (String × String)) :=
  match out with
  | .err => .error .brokerErr
  | .ok resp =>
    match resp.lease_id with
    | none => .error (.keyErr "lease_id")
    | some _ =>
      match resp.lease_duration with
      | none => .error (.keyErr "lease_duration")
      | some _ =>
        match resp.renewable with
        | none => .error (.keyErr "renewable")
        | some _ =>
          match resp.data with
          | none => .error (.keyErr "data")
          | some d =>
            match d with
            | .dict m => .ok m
            | .nondict => .error .valueErr

/-- Embedding of `start` (vault.py lines 139-148): raises without an active
lease or on a non-renewable lease; otherwise clears the stop event and spawns
a fresh renewer thread (identified by `new_tid`). -/
def start (st : DynamicDatabaseSecret) (new_tid : ℕ) :
    Except String DynamicDatabaseSecret :=
  if st.lease_id = none then
    .error "Cannot start renewer thread without an active lease."
  else if !st.renewable then
    .error "Lease is not renewable."
  else
    .ok { st with stop_event := false, renew_thread := some new_tid }

/-- Result of `Thread.join` called by `caller` on thread `thread_tid`: CPython
raises `RuntimeError("cannot join current thread")` on a self-join and
otherwise blocks until the thread exits (no state change). -/
def joinResult (thread_tid : ℕ) (caller : Option ℕ) : Except String Unit :=
  if caller = some thread_tid then .error "cannot join current thread" else .ok ()

/-- Embedding of `stop` (vault.py lines 150-159): set the stop event, then
join the renewer thread if one was ever started; a `RuntimeError` whose message
contains "cannot join current thread" is swallowed, any other is re-raised.
`caller` is the thread invoking `stop` (`none` for a non-renewer thread). -/
def stop (st : DynamicDatabaseSecret) (caller : Option ℕ) :
    Except String DynamicDatabaseSecret :=
  let st1 := { st with stop_event := true }
  match st1.renew_thread with
  | none => .ok st1
  | some t =>
    match joinResult t caller with
    | .ok _ => .ok st1
    | .error msg =>
      if strContains msg "cannot join current thread" then .ok st1 else .error msg

/-- Embedding of `revoke` (vault.py lines 161-173): if a lease id is present
(and truthy), call `sys.revoke_lease`; on success clear the five lease fields,
on failure log and swallow.  The boolean reports whether the broker was
called. -/
def revoke (st : DynamicDatabaseSecret) (out : RevokeOutcome) :
    DynamicDatabaseSecret × Bool :=
  match st.lease_id with
  | none => (st, false)
  | some lid =>
    if lid = "" then (st, false)
    else
      match out with
      | .err => (st, true)
      | .ok =>
        ({ st with lease_id := none, lease_duration := none, lease_expires := none,
                   renewable := false, credentials := none }, true)

/-- Embedding of `next_renew_interval` (vault.py lines 176-181):
`max(self._renew_pct * (self._lease_duration or 0), self._min_interval)`. -/
def next_renew_interval (st : DynamicDatabaseSecret) : ℚ :=
  max (st.renew_pct * ((st.lease_duration.getD 0 : ℤ) : ℚ)) st.min_interval

/-- True when the renew response carries a `warnings` list one of whose entries
contains "TTL value is capped" (vault.py lines 212-213). -/
def hasCapWarning (resp : RenewResp) : Bool :=
  match resp.warnings with
  | some (.strlist ws) => ws.any (fun w => strContains w "TTL value is capped")
  | _ => false

/-- Embedding of the `try` block of one `_renew_loop` iteration (vault.py lines
192-218): raise if the lease is non-renewable (before any broker call),
otherwise call `renew_lease`; on success update `lease_duration` (keeping the
old value when the response lacks the key), recompute `lease_expires` from the
request time, and clear `renewable` when a cap warning is present.  Returns
(post state, whether the block completed without raising, whether the broker
renew call was made). -/
def renew_once (st : DynamicDatabaseSecret) (request_time : ℤ) (out : RenewOutcome) :
    DynamicDatabaseSecret × Bool × Bool :=
  if !st.renewable then (st, false, false)
  else
    match out with
    | .err => (st, false, true)
    | .ok resp =>
      let st1 := { st with lease_duration :=
        match resp.lease_duration with
        | some d => some d
        | none => st.lease_duration }
      let st2 := { st1 with
        lease_expires := some (request_time + st1.lease_duration.getD 0) }
      let st3 := if hasCapWarning resp then { st2 with renewable := false } else st2
      (st3, true, true)

/-- How one `_renew_loop` iteration ends: the loop guard observed the stop
event and the `while` exits; the body ran and the loop continues; or the body
executed `break`. -/
inductive LoopExit where
  | stops
  | continues
  | breaks
deriving DecidableEq

/-- Observable effects of one `_renew_loop` iteration: the manager state
afterwards, how the iteration ended, the thread spawned by a `start()` call (if
any), the `thread=` argument of each callback invocation, and how many broker
renew calls and `acquire()` calls were made. -/
structure IterResult where
  st : DynamicDatabaseSecret
  control : LoopExit
  spawned : Option ℕ
  callback_args : List (Option ℕ)
  renew_calls : ℕ
  acquire_calls : ℕ
deriving DecidableEq

/-- External inputs consumed by one `_renew_loop` iteration: the outcome of the
renew call, its request time, the outcome of a fallback `generate_credentials`
call, its request time, and the thread id a `start()` call would allocate. -/
structure IterInput where
  renew_out : RenewOutcome
  renew_time : ℤ
  gen_out : GenOutcome
  acq_time : ℤ
  new_tid : ℕ

/-- Embedding of one iteration of `_renew_loop` (vault.py lines 191-231),
executed by thread `tid`: check the stop event on waking; run the renewal
attempt; on failure run the recovery path `self.stop(); self.acquire();
self.start()` (an exception there logs and breaks), then invoke the callback
with `creds=self, thread=self._renew_thread` when one is registered. -/
def loop_iter (st : DynamicDatabaseSecret) (tid : ℕ) (inp : IterInput) : IterResult :=
  if st.stop_event then
    ⟨st, .stops, none, [], 0, 0⟩
  else
    let r := renew_once st inp.renew_time inp.renew_out
    let rcalls : ℕ := if r.2.2 then 1 else 0
    if r.2.1 then
      ⟨r.1, .continues, none, [], rcalls, 0⟩
    else
      match stop r.1 (some tid) with
      | .error _ => ⟨{ r.1 with stop_event := true }, .breaks, none, [], rcalls, 0⟩
      | .ok st2 =>
        let a := acquire st2 inp.acq_time inp.gen_out
        match a.2 with
        | .error _ => ⟨a.1, .breaks, none, [], rcalls, 1⟩
        | .ok _ =>
          match start a.1 inp.new_tid with
          | .error _ => ⟨a.1, .breaks, none, [], rcalls, 1⟩
          | .ok st4 =>
            ⟨st4, .continues, some inp.new_tid,
              if st4.has_callback then [st4.renew_thread] else [], rcalls, 1⟩

/-- Embedding of the `is_running` property (vault.py lines 98-100): a renewer
thread was started and is still alive (`alive` is the set of live threads). -/
def is_running (st : DynamicDatabaseSecret) (alive : List ℕ) : Bool :=
  match st.renew_thread with
  | none => false
  | some t => alive.contains t

end DynamicDatabaseSecret

/-- The five lease fields alone, for the reader-interleaving model. -/
structure Lease where
  lease_id : Option String
  lease_duration : Option ℤ
  lease_expires : Option ℤ
  renewable : Bool
  credentials : Option PyObj
deriving DecidableEq

/-- The lease fields of a manager state. -/
def DynamicDatabaseSecret.leaseFields (st : DynamicDatabaseSecret) : Lease :=
  ⟨st.lease_id, st.lease_duration, st.lease_expires, st.renewable, st.credentials⟩

/-- One atomic single-field assignment to the lease record.  Each Python
attribute assignment is atomic, but nothing serializes a sequence of them
against a concurrent reader. -/
inductive FieldWrite where
  | wid (v : Option String)
  | wdur (v : Option ℤ)
  | wexp (v : Option ℤ)
  | wren (v : Bool)
  | wcred (v : Option PyObj)
deriving DecidableEq

/-- Apply one atomic field write. -/
def applyWrite (l : Lease) (w : FieldWrite) : Lease :=
  match w with
  | .wid v => { l with lease_id := v }
  | .wdur v => { l with lease_duration := v }
  | .wexp v => { l with lease_expires := v }
  | .wren v => { l with renewable := v }
  | .wcred v => { l with credentials := v }

/-- The assignment sequence of a fully successful `acquire` (vault.py lines
114-120, in source order): lease id, duration, renewable, expiry, creds. -/
def acquire_writes (request_time : ℤ) (lid : String) (dur : ℤ) (rnw : Bool)
    (d : PyObj) : List FieldWrite :=
  [.wid (some lid), .wdur (some dur), .wren rnw,
   .wexp (some (request_time + dur)), .wcred (some d)]

/-- The assignment sequence of a successful `revoke` (vault.py lines 167-171,
in source order). -/
def revoke_writes : List FieldWrite :=
  [.wid none, .wdur none, .wexp none, .wren false, .wcred none]

/-- What a concurrent reader sees after the writer has completed the first `k`
atomic writes of the sequence `ws`. -/
def observe (l : Lease) (ws : List FieldWrite) (k : ℕ) : Lease :=
  (ws.take k).foldl applyWrite l

/-- The empty ("no active lease") sentinel. -/
def emptyLease : Lease := ⟨none, none, none, false, none⟩

open DynamicDatabaseSecret

/-! Helper lemmas shared by several claim theorems. -/

/-- The result component of `acquire` depends only on the broker outcome. -/
theorem acquire_snd (st : DynamicDatabaseSecret) (t : ℤ) (out : GenOutcome) :
    (st.acquire t out).2 = acquireResult out := by
  rcases out with _ | ⟨lid, dur, rnw, data⟩
  · rfl
  rcases lid with _ | lid
  · rfl
  rcases dur with _ | dur
  · rfl
  rcases rnw with _ | rnw
  · rfl
  rcases data with _ | d
  · rfl
  rcases d with m | _ <;> rfl

/-- Calling `stop` always succeeds and its only state change is setting the
stop event: the join either returns, or the self-join error is swallowed. -/
theorem stop_eq (st : DynamicDatabaseSecret) (caller : Option ℕ) :
    st.stop caller = .ok { st with stop_event := true } := by
  obtain ⟨p, mi, cb, lid, dur, exp, rnw, cred, ev, th⟩ := st
  cases th with
  | none => rfl
  | some t =>
    simp only [DynamicDatabaseSecret.stop, DynamicDatabaseSecret.joinResult]
    by_cases h : caller = some t
    · simp [h,
        show strContains "cannot join current thread" "cannot join current thread" = true
          from by decide]
    · simp [h]


/-- C5: for every state whose lease duration is a stored integer d ≥ 0, with
renew_pct in (0,1], the computed wait interval equals
max(renew_pct * duration, min_interval). -/
theorem next_renew_interval_formula (st : DynamicDatabaseSecret) (d : ℤ)
    (hd : st.lease_duration = some d) (hd0 : 0 ≤ d)
    (hp0 : 0 < st.renew_pct) (hp1 : st.renew_pct ≤ 1) :
    st.next_renew_interval = max (st.renew_pct * (d : ℚ)) st.min_interval := by
  simp [DynamicDatabaseSecret.next_renew_interval, hd]

/-- C5 witness: renew_pct = 0.7, duration = 3600, min_interval = 5 yields an
interval of 2520 seconds. -/
theorem next_renew_interval_formula_witness :
    DynamicDatabaseSecret.next_renew_interval
      ⟨7/10, 5, false, some "lease-a", some 3600, some 3600, true,
        some (.dict [("password", "p")]), false, none⟩ = 2520 :=
  (next_renew_interval_formula _ 3600 rfl (by norm_num) (by norm_num)
    (by norm_num)).trans (by norm_num)

/-- C7: when the current lease is marked non-renewable, a wake of the renew
loop raises before any broker call: the state is unchanged, the attempt fails
(third component false says `renew_lease` was never called), routing control
to the re-acquisition path. -/
theorem nonrenewable_wake_skips_broker (st : DynamicDatabaseSecret) (t : ℤ)
    (out : RenewOutcome) (h : st.renewable = false) :
    st.renew_once t out = (st, false, false) := by
  simp [DynamicDatabaseSecret.renew_once, h]

/-- C7 witness: a concrete non-renewable state short-circuits without calling
the broker. -/
theorem nonrenewable_wake_skips_broker_witness :
    DynamicDatabaseSecret.renew_once
      ⟨7/10, 5, false, some "lease-a", some 300, some 300, false,
        some (.dict [("password", "p")]), false, some 3⟩ 0
      (.ok ⟨some 600, none⟩) =
    (⟨7/10, 5, false, some "lease-a", some 300, some 300, false,
        some (.dict [("password", "p")]), false, some 3⟩, false, false) :=
  nonrenewable_wake_skips_broker _ 0 _ rfl

/-- C4: a successful renewal leaves the lease id (and credentials) unchanged,
stores the duration from the response, recomputes the expiry as the request
time plus the new duration, and ends renewable exactly when no "TTL value is
capped" warning is present (a one-way true-to-false transition, since the
success path requires renewable = true on entry). -/
theorem renew_success_updates (st : DynamicDatabaseSecret) (t : ℤ)
    (resp : RenewResp) (d : ℤ) (hren : st.renewable = true)
    (hd : resp.lease_duration = some d) :
    st.renew_once t (.ok resp) =
      ({ st with lease_duration := some d, lease_expires := some (t + d),
                 renewable := !DynamicDatabaseSecret.hasCapWarning resp },
        true, true) := by
  obtain ⟨p, mi, cb, lid, dur, exp, rnw, cred, ev, th⟩ := st
  obtain ⟨rdur, rwarn⟩ := resp
  simp only at hren hd
  subst hren
  subst hd
  cases hcap : DynamicDatabaseSecret.hasCapWarning ⟨some d, rwarn⟩ <;>
    simp [DynamicDatabaseSecret.renew_once, hcap]

/-- C4 witness: a concrete renewal whose response carries a cap warning keeps
the lease id, updates duration 300 to 600, recomputes the expiry from request
time 1000, and flips renewable to false. -/
theorem renew_success_updates_witness :
    DynamicDatabaseSecret.renew_once
      ⟨7/10, 5, false, some "lease-a", some 300, some 300, true,
        some (.dict [("password", "p")]), false, some 3⟩ 1000
      (.ok ⟨some 600, some (.strlist ["TTL value is capped at 600 seconds"])⟩) =
    ({ (⟨7/10, 5, false, some "lease-a", some 300, some 300, true,
          some (.dict [("password", "p")]), false, some 3⟩ : DynamicDatabaseSecret)
        with lease_duration := some 600, lease_expires := some (1000 + 600),
             renewable := !DynamicDatabaseSecret.hasCapWarning
               ⟨some 600, some (.strlist ["TTL value is capped at 600 seconds"])⟩ },
      true, true) :=
  renew_success_updates _ 1000 _ 600 rfl rfl

/-- C2 (amended): full characterization of the state effect of acquire.  A
failure of the broker call itself leaves every field unchanged; a response
missing a key raises after the assignments that precede that key have already
been applied (the earlier fields keep their new values, the later ones their
old values); a non-dict payload updates all five fields before the ValueError;
success updates all five fields and returns the credential map. -/
theorem acquire_characterization (st : DynamicDatabaseSecret) (t : ℤ)
    (lid : String) (dur : ℤ) (rnw : Bool) (m : List (String × String))
    (odur : Option ℤ) (ornw : Option Bool) (odata : Option PyObj) :
    st.acquire t .err = (st, .error .brokerErr) ∧
    st.acquire t (.ok ⟨none, odur, ornw, odata⟩) =
      (st, .error (.keyErr "lease_id")) ∧
    st.acquire t (.ok ⟨some lid, none, ornw, odata⟩) =
      ({ st with lease_id := some lid }, .error (.keyErr "lease_duration")) ∧
    st.acquire t (.ok ⟨some lid, some dur, none, odata⟩) =
      ({ st with lease_id := some lid, lease_duration := some dur },
        .error (.keyErr "renewable")) ∧
    st.acquire t (.ok ⟨some lid, some dur, some rnw, none⟩) =
      ({ st with lease_id := some lid, lease_duration := some dur,
                 renewable := rnw, lease_expires := some (t + dur) },
        .error (.keyErr "data")) ∧
    st.acquire t (.ok ⟨some lid, some dur, some rnw, some .nondict⟩) =
      ({ st with lease_id := some lid, lease_duration := some dur,
                 renewable := rnw, lease_expires := some (t + dur),
                 credentials := some .nondict }, .error .valueErr) ∧
    st.acquire t (.ok ⟨some lid, some dur, some rnw, some (.dict m)⟩) =
      ({ st with lease_id := some lid, lease_duration := some dur,
                 renewable := rnw, lease_expires := some (t + dur),
                 credentials := some (.dict m) }, .ok m) :=
  ⟨rfl, rfl, rfl, rfl, rfl, rfl, rfl⟩

/-- C2 counterexample: with an active lease "old-lease" and a broker response
missing the lease_duration key, acquire raises a KeyError yet the stored lease
id has already been overwritten with "new-lease" — the prior lease state is
not left untouched on this failure. -/
theorem acquire_partial_update_cex :
    (DynamicDatabaseSecret.acquire
        ⟨7/10, 5, false, some "old-lease", some 300, some 100, true,
          some (.dict [("password", "old")]), false, none⟩ 0
        (.ok ⟨some "new-lease", none, some true,
          some (.dict [("password", "new")])⟩)).2 =
      .error (.keyErr "lease_duration") ∧
    (DynamicDatabaseSecret.acquire
        ⟨7/10, 5, false, some "old-lease", some 300, some 100, true,
          some (.dict [("password", "old")]), false, none⟩ 0
        (.ok ⟨some "new-lease", none, some true,
          some (.dict [("password", "new")])⟩)).1.lease_id ≠ some "old-lease" := by
  exact ⟨rfl, by decide⟩

/-- C10: revoke with an active (truthy) lease id calls the broker; if the call
raises, the exception is swallowed and every field is unchanged; if it
succeeds, all five lease fields are cleared.  With no active lease (absent or
empty id) no broker call is made and the call is a no-op. -/
theorem revoke_characterization (st : DynamicDatabaseSecret) (lid : String)
    (hl : st.lease_id = some lid) (hne : lid ≠ "") :
    st.revoke .err = (st, true) ∧
    st.revoke .ok =
      ({ st with lease_id := none, lease_duration := none, lease_expires := none,
                 renewable := false, credentials := none }, true) ∧
    (∀ st2 : DynamicDatabaseSecret, st2.lease_id = none →
      ∀ out, st2.revoke out = (st2, false)) ∧
    (∀ st3 : DynamicDatabaseSecret, st3.lease_id = some "" →
      ∀ out, st3.revoke out = (st3, false)) := by
  obtain ⟨p, mi, cb, slid, dur, exp, rnw, cred, ev, th⟩ := st
  simp only at hl
  subst hl
  refine ⟨?_, ?_, ?_, ?_⟩
  · simp [DynamicDatabaseSecret.revoke, hne]
  · simp [DynamicDatabaseSecret.revoke, hne]
  · intro st2 h2 out
    obtain ⟨p2, mi2, cb2, lid2, dur2, exp2, rnw2, cred2, ev2, th2⟩ := st2
    simp only at h2
    subst h2
    rfl
  · intro st3 h3 out
    obtain ⟨p3, mi3, cb3, lid3, dur3, exp3, rnw3, cred3, ev3, th3⟩ := st3
    simp only at h3
    subst h3
    cases out <;> rfl

/-- C10 witness: for a concrete active lease, a failing broker revoke call
leaves the state unchanged (and the exception is swallowed). -/
theorem revoke_characterization_witness :
    DynamicDatabaseSecret.revoke
      ⟨7/10, 5, false, some "lease-a", some 300, some 100, true,
        some (.dict [("password", "p")]), false, some 3⟩ .err =
    (⟨7/10, 5, false, some "lease-a", some 300, some 100, true,
        some (.dict [("password", "p")]), false, some 3⟩, true) :=
  (revoke_characterization _ "lease-a" rfl (by decide)).1

/-- C8: stop never raises, its only effect is setting the stop event, so it is
idempotent — a second stop (from any caller thread, including the renewer
thread itself, whose self-join error is swallowed) returns the same state —
and stopping a never-started or already-stopped manager is a no-op apart from
the (already set) event. -/
theorem stop_idempotent (st : DynamicDatabaseSecret) (c₁ c₂ : Option ℕ) :
    st.stop c₁ = .ok { st with stop_event := true } ∧
    DynamicDatabaseSecret.stop { st with stop_event := true } c₂ =
      .ok { st with stop_event := true } :=
  ⟨stop_eq st c₁, stop_eq _ c₂⟩

/-- Acquire never touches the callback registration, the stop event or the
thread handle. -/
theorem acquire_preserves (st : DynamicDatabaseSecret) (t : ℤ) (out : GenOutcome) :
    (st.acquire t out).1.renew_thread = st.renew_thread ∧
    (st.acquire t out).1.has_callback = st.has_callback ∧
    (st.acquire t out).1.stop_event = st.stop_event := by
  rcases out with _ | ⟨lid, dur, rnw, data⟩
  · exact ⟨rfl, rfl, rfl⟩
  rcases lid with _ | lid
  · exact ⟨rfl, rfl, rfl⟩
  rcases dur with _ | dur
  · exact ⟨rfl, rfl, rfl⟩
  rcases rnw with _ | rnw
  · exact ⟨rfl, rfl, rfl⟩
  rcases data with _ | d
  · exact ⟨rfl, rfl, rfl⟩
  rcases d with m | _ <;> exact ⟨rfl, rfl, rfl⟩

/-- The renewal attempt never touches the lease id, the credentials, the
callback registration, the stop event or the thread handle. -/
theorem renew_once_preserves (st : DynamicDatabaseSecret) (t : ℤ)
    (out : RenewOutcome) :
    (st.renew_once t out).1.renew_thread = st.renew_thread ∧
    (st.renew_once t out).1.has_callback = st.has_callback ∧
    (st.renew_once t out).1.stop_event = st.stop_event ∧
    (st.renew_once t out).1.lease_id = st.lease_id ∧
    (st.renew_once t out).1.credentials = st.credentials := by
  rcases out with _ | resp
  · simp only [DynamicDatabaseSecret.renew_once]
    split <;> exact ⟨rfl, rfl, rfl, rfl, rfl⟩
  · simp only [DynamicDatabaseSecret.renew_once]
    split
    · exact ⟨rfl, rfl, rfl, rfl, rfl⟩
    · split <;> exact ⟨rfl, rfl, rfl, rfl, rfl⟩

/-- Unfolding of `is_running` when a renewer thread handle is present. -/
theorem is_running_eq (st : DynamicDatabaseSecret) (alive : List ℕ) (t : ℕ)
    (h : st.renew_thread = some t) : st.is_running alive = alive.contains t := by
  unfold DynamicDatabaseSecret.is_running
  rw [h]

/-- One failed-renewal loop iteration whose fallback `acquire` raises: the
body breaks out of the loop after the single acquire attempt. -/
theorem loop_iter_fail_err (st : DynamicDatabaseSecret) (tid : ℕ)
    (inp : IterInput) (e : AcquireErr) (hstop : st.stop_event = false)
    (hfail : (st.renew_once inp.renew_time inp.renew_out).2.1 = false)
    (ha : acquireResult inp.gen_out = .error e) :
    st.loop_iter tid inp =
      ⟨(DynamicDatabaseSecret.acquire
          { (st.renew_once inp.renew_time inp.renew_out).1 with stop_event := true }
          inp.acq_time inp.gen_out).1, .breaks, none, [],
        if (st.renew_once inp.renew_time inp.renew_out).2.2 then 1 else 0, 1⟩ := by
  simp [DynamicDatabaseSecret.loop_iter, hstop, hfail, stop_eq, acquire_snd, ha]

/-- One failed-renewal loop iteration whose fallback `acquire` returns a
credential map: the body then runs `start()` and, when that succeeds, invokes
the callback and continues the loop. -/
theorem loop_iter_fail_ok (st : DynamicDatabaseSecret) (tid : ℕ)
    (inp : IterInput) (m : List (String × String)) (hstop : st.stop_event = false)
    (hfail : (st.renew_once inp.renew_time inp.renew_out).2.1 = false)
    (ha : acquireResult inp.gen_out = .ok m) :
    st.loop_iter tid inp =
      (match DynamicDatabaseSecret.start
          (DynamicDatabaseSecret.acquire
            { (st.renew_once inp.renew_time inp.renew_out).1 with stop_event := true }
            inp.acq_time inp.gen_out).1 inp.new_tid with
       | .error _ =>
          ⟨(DynamicDatabaseSecret.acquire
              { (st.renew_once inp.renew_time inp.renew_out).1 with stop_event := true }
              inp.acq_time inp.gen_out).1, .breaks, none, [],
            if (st.renew_once inp.renew_time inp.renew_out).2.2 then 1 else 0, 1⟩
       | .ok st4 =>
          ⟨st4, .continues, some inp.new_tid,
            if st4.has_callback then [st4.renew_thread] else [],
            if (st.renew_once inp.renew_time inp.renew_out).2.2 then 1 else 0, 1⟩) := by
  simp [DynamicDatabaseSecret.loop_iter, hstop, hfail, stop_eq, acquire_snd, ha]

/-- A successful renewal iteration just updates the lease and continues: no
acquire call, no spawn, no callback. -/
theorem loop_iter_renew_ok (st : DynamicDatabaseSecret) (tid : ℕ)
    (inp : IterInput) (hstop : st.stop_event = false)
    (hok : (st.renew_once inp.renew_time inp.renew_out).2.1 = true) :
    st.loop_iter tid inp =
      ⟨(st.renew_once inp.renew_time inp.renew_out).1, .continues, none, [],
        if (st.renew_once inp.renew_time inp.renew_out).2.2 then 1 else 0, 0⟩ := by
  simp [DynamicDatabaseSecret.loop_iter, hstop, hok]

/-- C3: when a renewal attempt in the loop fails, the iteration performs
exactly one acquire attempt; and whenever that acquire raises, the body breaks
out of the loop (no further retry), no new renewer thread is spawned, the
thread handle is unchanged, and once the executing registered thread has
exited, is_running reads false. -/
theorem renewal_failure_one_acquire (st : DynamicDatabaseSecret) (tid : ℕ)
    (inp : IterInput) (hstop : st.stop_event = false)
    (hfail : (st.renew_once inp.renew_time inp.renew_out).2.1 = false) :
    (st.loop_iter tid inp).acquire_calls = 1 ∧
    ∀ e, (st.acquire inp.acq_time inp.gen_out).2 = .error e →
      (st.loop_iter tid inp).control = .breaks ∧
      (st.loop_iter tid inp).spawned = none ∧
      (st.loop_iter tid inp).st.renew_thread = st.renew_thread ∧
      ∀ alive : List ℕ, st.renew_thread = some tid → tid ∉ alive →
        (st.loop_iter tid inp).st.is_running alive = false := by
  have hrt : (DynamicDatabaseSecret.acquire
      { (st.renew_once inp.renew_time inp.renew_out).1 with stop_event := true }
      inp.acq_time inp.gen_out).1.renew_thread = st.renew_thread := by
    rw [(acquire_preserves _ _ _).1]
    exact (renew_once_preserves st inp.renew_time inp.renew_out).1
  constructor
  · cases ha : acquireResult inp.gen_out with
    | error e => rw [loop_iter_fail_err st tid inp e hstop hfail ha]
    | ok m =>
      rw [loop_iter_fail_ok st tid inp m hstop hfail ha]
      cases hs : DynamicDatabaseSecret.start
          (DynamicDatabaseSecret.acquire
            { (st.renew_once inp.renew_time inp.renew_out).1 with stop_event := true }
            inp.acq_time inp.gen_out).1 inp.new_tid with
      | error msg => rfl
      | ok st4 => rfl
  · intro e he
    rw [acquire_snd] at he
    rw [loop_iter_fail_err st tid inp e hstop hfail he]
    refine ⟨rfl, rfl, hrt, ?_⟩
    intro alive hth hmem
    rw [is_running_eq _ alive tid (hrt.trans hth)]
    simpa using hmem

/-- C3 witness: a concrete iteration with a non-renewable lease (renewal fails
without a broker call) and a failing fallback acquire makes exactly one
acquire attempt, breaks, and leaves is_running false once the renewer thread
has exited. -/
theorem renewal_failure_one_acquire_witness :
    (DynamicDatabaseSecret.loop_iter
      ⟨7/10, 5, false, some "lease-a", some 300, some 100, false,
        some (.dict [("password", "a")]), false, some 3⟩ 3
      ⟨.err, 0, .err, 0, 4⟩).acquire_calls = 1 ∧
    (DynamicDatabaseSecret.loop_iter
      ⟨7/10, 5, false, some "lease-a", some 300, some 100, false,
        some (.dict [("password", "a")]), false, some 3⟩ 3
      ⟨.err, 0, .err, 0, 4⟩).control = .breaks ∧
    (DynamicDatabaseSecret.loop_iter
      ⟨7/10, 5, false, some "lease-a", some 300, some 100, false,
        some (.dict [("password", "a")]), false, some 3⟩ 3
      ⟨.err, 0, .err, 0, 4⟩).st.is_running [] = false := by
  obtain ⟨h1, h2⟩ := renewal_failure_one_acquire
    ⟨7/10, 5, false, some "lease-a", some 300, some 100, false,
      some (.dict [("password", "a")]), false, some 3⟩ 3
    ⟨.err, 0, .err, 0, 4⟩ rfl rfl
  obtain ⟨hb, _, _, hr⟩ := h2 .brokerErr rfl
  exact ⟨h1, hb, hr [] rfl (by decide)⟩

/-- Equation for a fully successful acquire: all five lease fields updated,
credential map returned. -/
theorem acquire_ok_eq (st : DynamicDatabaseSecret) (t : ℤ) (lid : String)
    (dur : ℤ) (rnw : Bool) (m : List (String × String)) :
    st.acquire t (.ok ⟨some lid, some dur, some rnw, some (.dict m)⟩) =
      ({ st with lease_id := some lid, lease_duration := some dur,
                 renewable := rnw, lease_expires := some (t + dur),
                 credentials := some (.dict m) }, .ok m) := rfl

/-- C6: within a loop iteration, the callback list is empty after a successful
routine renewal, after a failed re-acquisition (acquire raised), and after a
re-acquisition whose new lease cannot be started (non-renewable); it is
exactly one invocation carrying the new renewer thread handle when the
renewal failed and acquire and start both succeeded (and `has_callback` is
set). -/
theorem callback_only_on_reacquisition (st : DynamicDatabaseSecret) (tid : ℕ)
    (inp : IterInput) (hstop : st.stop_event = false) :
    ((st.renew_once inp.renew_time inp.renew_out).2.1 = true →
      (st.loop_iter tid inp).callback_args = []) ∧
    (∀ e, (st.acquire inp.acq_time inp.gen_out).2 = .error e →
      (st.loop_iter tid inp).callback_args = []) ∧
    (∀ lid dur m,
      inp.gen_out = .ok ⟨some lid, some dur, some false, some (.dict m)⟩ →
      (st.loop_iter tid inp).callback_args = []) ∧
    (∀ lid dur m,
      (st.renew_once inp.renew_time inp.renew_out).2.1 = false →
      inp.gen_out = .ok ⟨some lid, some dur, some true, some (.dict m)⟩ →
      (st.loop_iter tid inp).callback_args =
        (if st.has_callback then [some inp.new_tid] else []) ∧
      (st.loop_iter tid inp).control = .continues ∧
      (st.loop_iter tid inp).spawned = some inp.new_tid) := by
  refine ⟨?_, ?_, ?_, ?_⟩
  · intro hok
    rw [loop_iter_renew_ok st tid inp hstop hok]
  · intro e he
    rw [acquire_snd] at he
    cases hro : (st.renew_once inp.renew_time inp.renew_out).2.1 with
    | true => rw [loop_iter_renew_ok st tid inp hstop hro]
    | false => rw [loop_iter_fail_err st tid inp e hstop hro he]
  · intro lid dur m hg
    cases hro : (st.renew_once inp.renew_time inp.renew_out).2.1 with
    | true => rw [loop_iter_renew_ok st tid inp hstop hro]
    | false =>
      rw [loop_iter_fail_ok st tid inp m hstop hro (by rw [hg]; rfl)]
      rw [hg, acquire_ok_eq]
      simp [DynamicDatabaseSecret.start]
  · intro lid dur m hro hg
    rw [loop_iter_fail_ok st tid inp m hstop hro (by rw [hg]; rfl)]
    rw [hg, acquire_ok_eq]
    simp [DynamicDatabaseSecret.start,
      (renew_once_preserves st inp.renew_time inp.renew_out).2.1]

/-- C6 witness: a concrete failed renewal followed by a successful
re-acquisition and restart invokes the callback exactly once, passing the new
renewer thread handle, and the loop continues. -/
theorem callback_only_on_reacquisition_witness :
    (DynamicDatabaseSecret.loop_iter
      ⟨7/10, 5, true, some "lease-a", some 300, some 100, false,
        some (.dict [("password", "a")]), false, some 3⟩ 3
      ⟨.err, 0, .ok ⟨some "lease-b", some 600, some true,
        some (.dict [("password", "b")])⟩, 50, 4⟩).callback_args = [some 4] ∧
    (DynamicDatabaseSecret.loop_iter
      ⟨7/10, 5, true, some "lease-a", some 300, some 100, false,
        some (.dict [("password", "a")]), false, some 3⟩ 3
      ⟨.err, 0, .ok ⟨some "lease-b", some 600, some true,
        some (.dict [("password", "b")])⟩, 50, 4⟩).control = .continues := by
  obtain ⟨hc, hk, -⟩ := (callback_only_on_reacquisition
    ⟨7/10, 5, true, some "lease-a", some 300, some 100, false,
      some (.dict [("password", "a")]), false, some 3⟩ 3
    ⟨.err, 0, .ok ⟨some "lease-b", some 600, some true,
      some (.dict [("password", "b")])⟩, 50, 4⟩ rfl).2.2.2
    "lease-b" 600 [("password", "b")] rfl rfl
  exact ⟨hc, hk⟩

/-- C1: on the renewal-failure recovery path the recovering thread (id 3)
calls stop(), acquire(), start() in sequence; start() clears the stop event
before the old thread next checks it, so the iteration ends with the stop
event clear and control `continues` — the old thread will run further
iterations — while a new renewer thread (id 4) was also spawned into the same
loop.  Two tasks now execute the scheduler loop concurrently. -/
theorem recovery_leaves_old_thread_running :
    DynamicDatabaseSecret.loop_iter
      ⟨7/10, 5, true, some "lease-a", some 100, some 100, true,
        some (.dict [("password", "a")]), false, some 3⟩ 3
      ⟨.err, 0, .ok ⟨some "lease-b", some 200, some true,
        some (.dict [("password", "b")])⟩, 0, 4⟩ =
    ⟨⟨7/10, 5, true, some "lease-b", some 200, some 200, true,
        some (.dict [("password", "b")]), false, some 4⟩,
      .continues, some 4, [some 4], 1, 1⟩ := by
  rfl

/-- C9 counterexample: with an active lease "lease-a" being replaced by
acquire() with "lease-b", a reader interleaved after the first of acquire's
five field assignments observes the new lease id paired with the old
credential — a state that is neither the complete old lease, nor the complete
new lease, nor the empty sentinel. -/
theorem reader_observes_mixed_state_cex :
    (observe ⟨some "lease-a", some 300, some 100, true,
        some (.dict [("password", "a")])⟩
      (acquire_writes 100 "lease-b" 600 true (.dict [("password", "b")])) 1).lease_id
      = some "lease-b" ∧
    (observe ⟨some "lease-a", some 300, some 100, true,
        some (.dict [("password", "a")])⟩
      (acquire_writes 100 "lease-b" 600 true (.dict [("password", "b")])) 1).credentials
      = some (.dict [("password", "a")]) ∧
    observe ⟨some "lease-a", some 300, some 100, true,
        some (.dict [("password", "a")])⟩
      (acquire_writes 100 "lease-b" 600 true (.dict [("password", "b")])) 1 ≠
      ⟨some "lease-a", some 300, some 100, true,
        some (.dict [("password", "a")])⟩ ∧
    observe ⟨some "lease-a", some 300, some 100, true,
        some (.dict [("password", "a")])⟩
      (acquire_writes 100 "lease-b" 600 true (.dict [("password", "b")])) 1 ≠
      observe ⟨some "lease-a", some 300, some 100, true,
          some (.dict [("password", "a")])⟩
        (acquire_writes 100 "lease-b" 600 true (.dict [("password", "b")])) 5 ∧
    observe ⟨some "lease-a", some 300, some 100, true,
        some (.dict [("password", "a")])⟩
      (acquire_writes 100 "lease-b" 600 true (.dict [("password", "b")])) 1 ≠
      emptyLease := by
  decide

/-- C9 (amended): acquire() and revoke() update the lease fields by a sequence
of individually-atomic single-field writes with no mutual exclusion: after
acquire's first write a reader sees the new lease id with all other fields
old; only after the full sequence does it see the complete new lease.
Likewise revoke's first write yields a half-cleared lease, and the full
sequence the empty sentinel. -/
theorem write_sequences_not_atomic (l : Lease) (t : ℤ) (lid : String)
    (dur : ℤ) (rnw : Bool) (d : PyObj) :
    observe l (acquire_writes t lid dur rnw d) 1 = { l with lease_id := some lid } ∧
    observe l (acquire_writes t lid dur rnw d) 5 =
      ⟨some lid, some dur, some (t + dur), rnw, some d⟩ ∧
    observe l revoke_writes 1 = { l with lease_id := none } ∧
    observe l revoke_writes 5 = emptyLease := by
  refine ⟨rfl, rfl, rfl, rfl⟩

/-- The write sequence used in the interleaving model agrees with the success
path of acquire itself: folding all five writes over the prior lease fields
gives exactly the lease fields acquire leaves behind. -/
theorem acquire_writes_agree (st : DynamicDatabaseSecret) (t : ℤ) (lid : String)
    (dur : ℤ) (rnw : Bool) (d : PyObj) :
    (st.acquire t (.ok ⟨some lid, some dur, some rnw, some d⟩)).1.leaseFields =
      observe st.leaseFields (acquire_writes t lid dur rnw d) 5 := by
  cases d <;> rfl

/-- The clear sequence in the interleaving model agrees with the success path
of revoke itself. -/
theorem revoke_writes_agree (st : DynamicDatabaseSecret) (lid : String)
    (hl : st.lease_id = some lid) (hne : lid ≠ "") :
    (st.revoke .ok).1.leaseFields = observe st.leaseFields revoke_writes 5 := by
  obtain ⟨p, mi, cb, slid, dur, exp, rnw, cred, ev, th⟩ := st
  simp only at hl
  subst hl
  simp [DynamicDatabaseSecret.revoke, hne, DynamicDatabaseSecret.leaseFields,
    observe, revoke_writes, applyWrite, emptyLease]

/-- Helper witness for the revoke-side coherence lemma. -/
theorem revoke_writes_agree_witness :
    (DynamicDatabaseSecret.revoke
      ⟨7/10, 5, false, some "lease-a", some 300, some 100, true,
        some (.dict [("password", "p")]), false, some 3⟩ .ok).1.leaseFields =
    observe (DynamicDatabaseSecret.leaseFields
      ⟨7/10, 5, false, some "lease-a", some 300, some 100, true,
        some (.dict [("password", "p")]), false, some 3⟩) revoke_writes 5 :=
  revoke_writes_agree _ "lease-a" rfl (by decide)
